import Mathlib

/-!
Shallow embedding of `src/app.js` (client-side blog enhancement layer)
and proofs about the claims of the specification.

The embedding translates each routine of the source into a pure Lean
function over explicit state:

* `ThemeManager` becomes a state-passing machine over `ThemeState`
  (document theme attribute, in-memory current theme, persisted storage).
* `ReadingProgress.addScrollListener.updateProgress` becomes arithmetic
  over `JsNum`, a model of JavaScript numbers with `nan` and infinities,
  since the source divides by a possibly-zero denominator.
* `TableOfContents`, `ReadingProgress.createProgressBar`,
  `ThemeManager.createThemeToggle` and `LinkCopier.addCopyLinks` become
  functions over lists of element records (`Elem`, `Heading`).
* `TableOfContents.generateId` becomes a character-list pipeline
  mirroring the source's regex chain.
* `SmoothScroll.init`'s click handler and `LinkCopier.copyLink` become
  functions from their inputs to outcome records.
-/

/-! ## JavaScript number model (for `updateProgress`) -/

/-- Model of a JavaScript number as used by the scroll-progress
computation: either a finite rational, `nan`, or a signed infinity. -/
inductive JsNum where
  | nan : JsNum
  | posInf : JsNum
  | negInf : JsNum
  | fin : ℚ → JsNum
deriving DecidableEq

/-- JavaScript division of two finite numbers (`a / b`): division by zero
yields `NaN` when the numerator is zero, otherwise a signed infinity. -/
def jsDivFin (a b : ℚ) : JsNum :=
  if b = 0 then
    if a = 0 then JsNum.nan
    else if 0 < a then JsNum.posInf
    else JsNum.negInf
  else JsNum.fin (a / b)

/-- Multiplication by the literal `100` (a positive finite number):
`NaN` and infinities propagate, finite values scale. -/
def jsMul100 : JsNum → JsNum
  | JsNum.nan => JsNum.nan
  | JsNum.posInf => JsNum.posInf
  | JsNum.negInf => JsNum.negInf
  | JsNum.fin q => JsNum.fin (q * 100)

/-- `Math.min(a, b)` with a finite second argument: returns `NaN` if the
first argument is `NaN`, otherwise the smaller value. -/
def jsMin (a : JsNum) (b : ℚ) : JsNum :=
  match a with
  | JsNum.nan => JsNum.nan
  | JsNum.posInf => JsNum.fin b
  | JsNum.negInf => JsNum.negInf
  | JsNum.fin q => JsNum.fin (min q b)

/-- `ReadingProgress.addScrollListener.updateProgress` (src/app.js:150-160):
`docHeight = scrollHeight - innerHeight`,
`scrollPercent = (scrollTop / docHeight) * 100`, and the bar width is
`Math.min(scrollPercent, 100)`.  There is no division-by-zero guard in
the source. -/
def updateProgressWidth (scrollTop scrollHeight innerHeight : ℚ) : JsNum :=
  let docHeight : ℚ := scrollHeight - innerHeight
  let scrollPercent : JsNum := jsMul100 (jsDivFin scrollTop docHeight)
  jsMin scrollPercent 100

/-! ## Theme manager state machine -/

/-- State visible to `ThemeManager`: the document's `data-color-scheme`
attribute (`none` when absent), the in-memory `currentTheme`, the
persisted `blog-theme` storage slot, and whether `localStorage` works
(when it throws, reads return `null` and writes are swallowed). -/
structure ThemeState where
  attr : Option String
  currentTheme : String
  stored : Option String
  storageOk : Bool
deriving DecidableEq

/-- `ThemeManager.getStoredTheme` (src/app.js:19-25): returns the stored
value, or `null` when storage throws. -/
def getStoredTheme (s : ThemeState) : Option String :=
  if s.storageOk then s.stored else none

/-- `ThemeManager.getSystemPreference` (src/app.js:27-29). -/
def getSystemPreference (sysDark : Bool) : String :=
  if sysDark then "dark" else "light"

/-- JavaScript truthiness of a nullable string: `null` and `""` are falsy. -/
def jsTruthy : Option String → Bool
  | none => false
  | some s => !(s == "")

/-- JavaScript `a || b` on a nullable string `a` and a string `b`. -/
def jsOrElse (o : Option String) (d : String) : String :=
  match o with
  | none => d
  | some s => if s == "" then d else s

/-- The constructor expression
`this.getStoredTheme() || this.getSystemPreference()` (src/app.js:9),
as a function of the raw stored value and the system signal.  The source
performs no validity check on the stored string. -/
def resolveInitial (stored : Option String) (sysDark : Bool) : String :=
  jsOrElse stored (getSystemPreference sysDark)

/-- The spec's words for `resolveInitial` ("stored value if present and
valid, else system signal, else `light`"), where valid means a member of
the enum `{light, dark}`.  Used only to compare against the source. -/
def specResolveInitial (stored : Option String) (sysDark : Bool) : String :=
  match stored with
  | some s => if s = "light" ∨ s = "dark" then s else getSystemPreference sysDark
  | none => getSystemPreference sysDark

/-- `ThemeManager.storeTheme` (src/app.js:37-43): writes the value;
failures (storage unavailable) are swallowed. -/
def storeTheme (v : String) (s : ThemeState) : ThemeState :=
  if s.storageOk then { s with stored := some v } else s

/-- `ThemeManager.applyTheme` (src/app.js:31-35): sets the document
attribute, updates `currentTheme`, persists. -/
def applyTheme (v : String) (s : ThemeState) : ThemeState :=
  storeTheme v { s with attr := some v, currentTheme := v }

/-- `ThemeManager.toggleTheme` (src/app.js:45-49): flips the current
theme (`dark` maps to `light`, anything else maps to `dark`) and applies
it.  `updateToggleButton` touches no modeled state. -/
def toggleTheme (s : ThemeState) : ThemeState :=
  applyTheme (if s.currentTheme == "dark" then "light" else "dark") s

/-- The system color-scheme change handler registered by
`ThemeManager.addSystemThemeListener` (src/app.js:109-117):
`if (!this.getStoredTheme()) { this.applyTheme(e.matches ? 'dark' : 'light') }`. -/
def handleSystemChange (evMatches : Bool) (s : ThemeState) : ThemeState :=
  if jsTruthy (getStoredTheme s) then s
  else applyTheme (getSystemPreference evMatches) s

/-- `ThemeManager` constructor plus `init` (src/app.js:8-17), restricted
to the modeled state: resolve the initial theme from storage and system
signal, then `applyTheme` it.  The document starts with no theme
attribute. -/
def initThemeManager (stored0 : Option String) (storageOk : Bool)
    (sysDark : Bool) : ThemeState :=
  let s0 : ThemeState :=
    { attr := none, currentTheme := "", stored := stored0, storageOk := storageOk }
  let cur := resolveInitial (getStoredTheme s0) sysDark
  applyTheme cur { s0 with currentTheme := cur }

/-! ## Smooth scroll click handler -/

/-- Outcome of one dispatch of the `SmoothScroll` click handler:
whether `e.preventDefault()` was called, and the `window.scrollTo` top
argument when a scroll was issued. -/
structure ClickOutcome where
  prevented : Bool
  scrolledTo : Option Int
deriving DecidableEq

/-- `SmoothScroll.init`'s click handler (src/app.js:410-428), given the
clicked link's `href`, the resolver `document.querySelector` (mapping a
`#id` selector to the target's `getBoundingClientRect().top`, `none`
when no element matches), and `window.pageYOffset`.  The source calls
`e.preventDefault()` before looking the target up. -/
def smoothScrollClick (href : String) (resolve : String → Option Int)
    (pageYOffset : Int) : ClickOutcome :=
  if !(href.data.head? == some '#') then { prevented := false, scrolledTo := none }
  else if href == "#" then { prevented := false, scrolledTo := none }
  else
    match resolve href with
    | some top => { prevented := true, scrolledTo := some (top + pageYOffset - 80) }
    | none => { prevented := true, scrolledTo := none }

/-! ## Link copier -/

/-- Outcome of `LinkCopier.copyLink`: whether the legacy fallback ran
and whether the success feedback (icon swap) was shown. -/
structure CopyOutcome where
  fallbackAttempted : Bool
  feedbackShown : Bool
deriving DecidableEq

/-- `LinkCopier.copyLink` (src/app.js:255-266) together with
`fallbackCopy` (src/app.js:268-279).  `primaryOk` is whether the
`navigator.clipboard.writeText` promise resolves; `fallbackThrows` is
whether `fallbackCopy` itself throws (escaping the `catch` block before
`showCopyFeedback`); `execOk` is the boolean result of
`document.execCommand('copy')`, which the source discards. -/
def copyLink (primaryOk fallbackThrows execOk : Bool) : CopyOutcome :=
  if primaryOk then { fallbackAttempted := false, feedbackShown := true }
  else if fallbackThrows then { fallbackAttempted := true, feedbackShown := false }
  else
    let _ := execOk
    { fallbackAttempted := true, feedbackShown := true }

/-! ## Document elements and singleton creation routines -/

/-- An element of the flattened document tree: tag name, `id`
attribute (`""` when absent), class attribute, text content. -/
structure Elem where
  tag : String
  id : String
  cls : String
  text : String
deriving DecidableEq

/-- The theme toggle button created by `ThemeManager.createThemeToggle`
(src/app.js:62-64). -/
def themeToggleElem : Elem :=
  { tag := "button", id := "theme-toggle", cls := "", text := "" }

/-- `ThemeManager.createThemeToggle.addToggle` (src/app.js:53-94) on a
document snapshot: if `.app-nav` is absent it only reschedules itself
(no document change now); if `#theme-toggle` already exists it returns;
otherwise it appends the toggle button. -/
def createThemeToggle (doc : List Elem) : List Elem :=
  if (doc.find? (fun e => e.cls == "app-nav")).isNone then doc
  else if (doc.find? (fun e => e.id == "theme-toggle")).isSome then doc
  else doc ++ [themeToggleElem]

/-- The bar created by `ReadingProgress.createProgressBar`
(src/app.js:131-145). -/
def progressBarElem : Elem :=
  { tag := "div", id := "reading-progress", cls := "", text := "" }

/-- `ReadingProgress.createProgressBar` (src/app.js:131-145): creates
the bar and appends it to the body, with no check for a prior
instance. -/
def createProgressBar (doc : List Elem) : List Elem :=
  doc ++ [progressBarElem]

/-- A level-2/3 heading as seen by `LinkCopier.addCopyLinks`: its `id`
(`""` when absent) and the number of `.copy-link` buttons among its
children. -/
structure Heading where
  id : String
  copyLinks : Nat
deriving DecidableEq

/-- `LinkCopier.addCopyLinks` (src/app.js:218-253) over the queried
list of `h2`/`h3` headings: a heading gets a copy button only when its
`id` is truthy and it has no `.copy-link` child yet. -/
def addCopyLinks (hs : List Heading) : List Heading :=
  hs.map fun h =>
    if h.id ≠ "" ∧ h.copyLinks = 0 then { h with copyLinks := h.copyLinks + 1 }
    else h

/-! ## Slug generation (`TableOfContents.generateId`) -/

/-- Character class of the regex `[a-z0-9 -]` (the characters KEPT by
`.replace(/[^a-z0-9 -]/g, '')`): lowercase ASCII letters (97-122),
digits (48-57), space (32) and hyphen (45). -/
def keepChar (c : Char) : Bool :=
  (97 ≤ c.toNat && c.toNat ≤ 122) || (48 ≤ c.toNat && c.toNat ≤ 57) ||
    c.toNat == 32 || c.toNat == 45

/-- JavaScript's `\s` class and `String.prototype.trim`'s whitespace,
restricted to the code points relevant here: space (32), tab (9),
LF (10), VT (11), FF (12), CR (13), NBSP (160), BOM (65279). -/
def jsWhitespace (c : Char) : Bool :=
  c.toNat == 32 || c.toNat == 9 || c.toNat == 10 || c.toNat == 11 ||
    c.toNat == 12 || c.toNat == 13 || c.toNat == 160 || c.toNat == 65279

/-- Hyphen test, for the regex pattern `-+`. -/
def isHyphen (c : Char) : Bool := c.toNat == 45

/-- Replacement step of `.replace(/\s+/g, '-')` applied per character
(runs are collapsed separately by `squeezeRun`). -/
def wsToHyphen (c : Char) : Char := if jsWhitespace c then '-' else c

/-- Collapse every maximal run of characters satisfying `p` to a single
character (the run's last one).  `squeezeRun p` followed by a pointwise
replacement of `p`-characters models `.replace(/p+/g, r)`. -/
def squeezeRun (p : Char → Bool) : List Char → List Char
  | [] => []
  | [c] => [c]
  | c :: d :: rest =>
    if p c && p d then squeezeRun p (d :: rest)
    else c :: squeezeRun p (d :: rest)

/-- `String.prototype.trim`: drop whitespace from both ends. -/
def trimEnds (l : List Char) : List Char :=
  ((l.dropWhile jsWhitespace).reverse.dropWhile jsWhitespace).reverse

/-- The first four steps of `TableOfContents.generateId`
(src/app.js:394-400): `text.toLowerCase()`, then
`.replace(/[^a-z0-9 -]/g, '')`, then `.replace(/\s+/g, '-')`, then
replace each `-+` run by a single `-`.  `Char.toLower` is the ASCII
lowering; the following filter keeps only ASCII characters, so
non-ASCII case differences are stripped either way. -/
def slugCore (l : List Char) : List Char :=
  squeezeRun isHyphen
    ((squeezeRun jsWhitespace ((l.map Char.toLower).filter keepChar)).map
      wsToHyphen)

/-- `TableOfContents.generateId` (src/app.js:394-400): the four-step
regex chain of `slugCore` followed by the final `.trim()`. -/
def generateId (text : String) : String :=
  (trimEnds (slugCore text.data)).asString

/-- The characters a slug can contain: lowercase ASCII letters, digits
and the hyphen. -/
def isSlugChar (c : Char) : Bool :=
  (97 ≤ c.toNat && c.toNat ≤ 122) || (48 ≤ c.toNat && c.toNat ≤ 57) ||
    c.toNat == 45

/-! ## Table of contents generator -/

/-- `h2, h3` selector (src/app.js:309). -/
def isHeading23 (n : Elem) : Bool := n.tag == "h2" || n.tag == "h3"

/-- The `nav.table-of-contents` element built by
`TableOfContents.createTOCElement` (src/app.js:327-348). -/
def tocElem : Elem :=
  { tag := "nav", id := "", cls := "table-of-contents", text := "Table of Contents" }

/-- Identifier assignment performed inside `TableOfContents.createTOCList`
(src/app.js:358-361): every queried heading without an `id` gets
`generateId` of its text (the queried elements are live references, so
this mutates the content region). -/
def assignHeadingIds (content : List Elem) : List Elem :=
  content.map fun n =>
    if isHeading23 n ∧ n.id = "" then { n with id := generateId n.text } else n

/-- The insertion anchor chosen at src/app.js:318-320:
`content.querySelector('p') || content.querySelector('h1, h2')`,
as an index into the flattened content region. -/
def tocAnchorIdx (l : List Elem) : Option Nat :=
  (l.findIdx? (fun n => n.tag == "p")).orElse
    (fun _ => l.findIdx? (fun n => n.tag == "h1" || n.tag == "h2"))

/-- `TableOfContents.generateTOC` (src/app.js:305-325) on the content
region: abort below 3 headings; assign missing heading ids; insert the
TOC right after the anchor, but only when the anchor exists AND has a
next sibling (`insertAfter && insertAfter.nextSibling`). -/
def generateTOC (content : List Elem) : List Elem :=
  let headings := content.filter isHeading23
  if headings.length < 3 then content
  else
    let content' := assignHeadingIds content
    match tocAnchorIdx content' with
    | none => content'
    | some i =>
      if i + 1 < content'.length then
        content'.take (i + 1) ++ [tocElem] ++ content'.drop (i + 1)
      else content'

/-- A qualifying content region (three level-2/3 headings) whose first
child is a paragraph that is not the last child: insertion succeeds. -/
def tocDemoContent : List Elem :=
  [{ tag := "p", id := "", cls := "", text := "intro" },
   { tag := "h2", id := "", cls := "", text := "Alpha" },
   { tag := "h2", id := "", cls := "", text := "Beta" },
   { tag := "h3", id := "", cls := "", text := "Gamma" }]

/-- A qualifying content region (three level-2/3 headings) whose only
paragraph is the last child, so `insertAfter.nextSibling` is null. -/
def tocLastParaContent : List Elem :=
  [{ tag := "h2", id := "", cls := "", text := "Alpha" },
   { tag := "h2", id := "", cls := "", text := "Beta" },
   { tag := "h3", id := "", cls := "", text := "Gamma" },
   { tag := "p", id := "", cls := "", text := "outro" }]

/-! ## Claim C1 — scroll progress and the degenerate divisor -/

/-- C1: the claim states the scroll-progress value always lies in
[0, 100] and that the degenerate case `scrollHeight == innerHeight`
yields 0, never `NaN`.  The source (src/app.js:154-158) has no guard:
with `scrollTop = 0`, `scrollHeight = innerHeight = 600` it computes
`(0 / 0) * 100 = NaN` and `Math.min(NaN, 100) = NaN`; with
`scrollTop = 10` in the same degenerate geometry it computes
`(10 / 0) * 100 = Infinity` and `Math.min(Infinity, 100) = 100` —
in neither case the 0 the spec requires.  The spec explicitly demands
the division-by-zero guard, so this is a bug in the code. -/
theorem progress_nan_at_degenerate_input :
    updateProgressWidth 0 600 600 = JsNum.nan ∧
    updateProgressWidth 10 600 600 = JsNum.fin 100 := by
  constructor <;> norm_num [updateProgressWidth, jsDivFin, jsMul100, jsMin]

/-! ## Claim C2 — smooth scroll click handler -/

/-- C2 counterexample: for a click on an anchor whose `href` is
`"#missing"` while no element matches, the handler still calls
`e.preventDefault()` (src/app.js:417 runs before the target lookup at
src/app.js:418), contradicting the claim that default behavior proceeds
unprevented when the target does not exist. -/
theorem smoothScroll_prevents_default_on_missing_target :
    (smoothScrollClick "#missing" (fun _ => none) 0).prevented = true ∧
    (smoothScrollClick "#missing" (fun _ => none) 0).scrolledTo = none := by
  decide

/-- C2 as amended: for every click on an in-page anchor link whose href
begins with `#` and is not the bare `#`, the handler always calls
`preventDefault`; when the target exists it scrolls to
`target.top + currentScroll - 80`, and when the target does not exist
it performs no scroll (but default navigation is still prevented). -/
theorem smoothScroll_click_behavior (href : String)
    (resolve : String → Option Int) (off : Int)
    (h1 : href.data.head? = some '#') (h2 : href ≠ "#") :
    (smoothScrollClick href resolve off).prevented = true ∧
    (∀ top : Int, resolve href = some top →
      (smoothScrollClick href resolve off).scrolledTo = some (top + off - 80)) ∧
    (resolve href = none →
      (smoothScrollClick href resolve off).scrolledTo = none) := by
  have h2' : (href == "#") = false := by simpa using h2
  cases hr : resolve href with
  | none => simp [smoothScrollClick, h1, h2', hr]
  | some top => simp [smoothScrollClick, h1, h2', hr]

/-- Witness for `smoothScroll_click_behavior` at `href = "#sec"`,
a resolver placing `#sec` at top 500, and scroll offset 20. -/
theorem smoothScroll_click_behavior_witness :
    (smoothScrollClick "#sec" (fun h => if h = "#sec" then some 500 else none)
        20).prevented = true ∧
    (smoothScrollClick "#sec" (fun h => if h = "#sec" then some 500 else none)
        20).scrolledTo = some 440 := by
  have h := smoothScroll_click_behavior "#sec"
    (fun h => if h = "#sec" then some 500 else none) 20 (by decide) (by decide)
  exact ⟨h.1, h.2.1 500 (by decide)⟩

/-! ## Claim C4 — copy-link feedback -/

/-- C4 counterexample: when the primary clipboard write rejects and the
legacy fallback's `document.execCommand('copy')` returns `false` (both
mechanisms failed), the source still shows the success feedback: the
`catch` block (src/app.js:261-265) calls `showCopyFeedback`
unconditionally after `fallbackCopy`, and `fallbackCopy`
(src/app.js:268-279) discards `execCommand`'s result. -/
theorem copyLink_feedback_shown_when_both_fail :
    copyLink false false false =
      { fallbackAttempted := true, feedbackShown := true } := by
  decide

/-- C4 as amended: when the primary clipboard write fails the legacy
fallback is attempted; the success feedback is then shown
unconditionally — even when the fallback's copy command reports
failure — and is suppressed only when the fallback itself throws. -/
theorem copyLink_feedback_characterization (p ft eo : Bool) :
    (copyLink p ft eo).fallbackAttempted = !p ∧
    (copyLink p ft eo).feedbackShown = (p || !ft) := by
  cases p <;> cases ft <;> cases eo <;> decide

/-! ## Claim C5 — initial theme resolution -/

/-- C5 counterexample: the constructor expression
`getStoredTheme() || getSystemPreference()` (src/app.js:9) performs no
validity check.  With stored value `"banana"` and a light system signal
the source yields `"banana"`, while the claim ("stored value when
present and valid, otherwise the system signal") prescribes
`"light"`. -/
theorem resolveInitial_no_validity_check :
    resolveInitial (some "banana") false = "banana" ∧
    specResolveInitial (some "banana") false = "light" ∧
    resolveInitial (some "banana") false ≠
      specResolveInitial (some "banana") false := by
  decide

/-- C5 as amended: initial theme resolution is a deterministic function
of (storedValue, systemSignal); any present non-empty stored string is
returned as-is (no validity check), otherwise the system signal decides
(`dark` when dark-preferred, else the default `light`).  On the valid
stored values `dark`/`light` and on absent storage the source agrees
with the claimed precedence. -/
theorem resolveInitial_characterization (stored : Option String)
    (sysDark : Bool) (s : String) :
    resolveInitial none sysDark = getSystemPreference sysDark ∧
    resolveInitial (some "") sysDark = getSystemPreference sysDark ∧
    resolveInitial (some s) sysDark =
      (if s == "" then getSystemPreference sysDark else s) ∧
    resolveInitial (some "dark") sysDark = "dark" ∧
    resolveInitial (some "light") sysDark = "light" ∧
    resolveInitial stored sysDark = jsOrElse stored (getSystemPreference sysDark) := by
  refine ⟨rfl, rfl, rfl, ?_, ?_, rfl⟩ <;> rfl

/-! ## Claim C8 — toggle involution -/

/-- C8 counterexample: the claim quantifies over any starting document
state, but the source validates nothing.  Starting from storage
containing `"banana"`, initialization applies theme `"banana"`
(attribute `banana`); the first toggle maps it to `dark` (it only
compares against `dark`, src/app.js:46) and the second back to `light`,
so two toggles leave the attribute at `light`, not at its original
value. -/
theorem toggle_twice_not_involutive_on_invalid_theme :
    (initThemeManager (some "banana") true false).attr = some "banana" ∧
    (toggleTheme (toggleTheme (initThemeManager (some "banana") true false))).attr
      = some "light" := by
  decide

/-- C8 as amended: whenever the in-memory theme is one of the two enum
values `dark`/`light` and agrees with the document attribute — as holds
in every state produced by a valid initialization or by any toggle —
calling `toggleTheme` twice returns the effective theme attribute to its
original value. -/
theorem toggle_twice_restores_attr (s : ThemeState)
    (hvalid : s.currentTheme = "dark" ∨ s.currentTheme = "light")
    (hattr : s.attr = some s.currentTheme) :
    (toggleTheme (toggleTheme s)).attr = s.attr := by
  rcases hvalid with h | h <;>
    simp [toggleTheme, applyTheme, storeTheme, h, hattr] <;>
    split <;> simp

/-- Witness for `toggle_twice_restores_attr` at the light state with
working storage. -/
theorem toggle_twice_restores_attr_witness :
    (toggleTheme (toggleTheme
      { attr := some "light", currentTheme := "light",
        stored := some "light", storageOk := true })).attr = some "light" :=
  toggle_twice_restores_attr
    { attr := some "light", currentTheme := "light",
      stored := some "light", storageOk := true }
    (Or.inr rfl) rfl

/-! ## Claim C9 — system change never overrides a stored preference -/

/-- C9: whenever a (readable, non-empty) stored preference exists, the
system color-scheme change handler (src/app.js:111-116) is skipped
entirely: the state — in particular the effective theme attribute — is
unchanged, for either direction of the system change. -/
theorem system_change_skipped_when_stored (s : ThemeState) (m : Bool)
    (v : String) (hok : s.storageOk = true) (hst : s.stored = some v)
    (hne : v ≠ "") :
    handleSystemChange m s = s := by
  simp [handleSystemChange, getStoredTheme, jsTruthy, hok, hst, hne]

/-- Witness for `system_change_skipped_when_stored`: a dark system
change event against an explicitly stored light theme. -/
theorem system_change_skipped_when_stored_witness :
    handleSystemChange true
      { attr := some "light", currentTheme := "light",
        stored := some "light", storageOk := true } =
      { attr := some "light", currentTheme := "light",
        stored := some "light", storageOk := true } :=
  system_change_skipped_when_stored _ true "light" rfl rfl (by decide)

/-! ## Claim C10 — applyTheme always persists -/

/-- C10: with storage available, every `applyTheme` call persists the
applied value (src/app.js:34 calls `storeTheme` unconditionally), and
after startup initialization — whatever the initial storage contents,
including the never-toggled case where the theme comes from the system
signal — the stored preference exists and equals the in-memory current
theme. -/
theorem applyTheme_always_persists (v : String) (s : ThemeState)
    (stored0 : Option String) (sysDark : Bool) (hok : s.storageOk = true) :
    ((applyTheme v s).stored = some v ∧ (applyTheme v s).currentTheme = v) ∧
    (initThemeManager stored0 true sysDark).stored =
      some (initThemeManager stored0 true sysDark).currentTheme := by
  constructor
  · simp [applyTheme, storeTheme, hok]
  · simp [initThemeManager, applyTheme, storeTheme]

/-- Witness for `applyTheme_always_persists`: applying `dark` to a fresh
state with working storage, and initializing with empty storage under a
dark system signal. -/
theorem applyTheme_always_persists_witness :
    ((applyTheme "dark"
        { attr := none, currentTheme := "", stored := none,
          storageOk := true }).stored = some "dark" ∧
      (applyTheme "dark"
        { attr := none, currentTheme := "", stored := none,
          storageOk := true }).currentTheme = "dark") ∧
    (initThemeManager none true true).stored =
      some (initThemeManager none true true).currentTheme :=
  applyTheme_always_persists "dark"
    { attr := none, currentTheme := "", stored := none, storageOk := true }
    none true rfl

/-! ## Claim C3 — idempotency of the singleton creation routines -/

/-- C3 counterexample: `ReadingProgress.createProgressBar`
(src/app.js:131-145) checks nothing before appending (unlike
`createThemeToggle`'s `getElementById` check at src/app.js:60): invoked
twice against the same document it leaves two `#reading-progress`
elements, not exactly one. -/
theorem createProgressBar_not_idempotent :
    (createProgressBar (createProgressBar [])).countP
      (fun e => e.id == "reading-progress") = 2 := by
  decide

/-- C3 as amended: only the theme toggle (src/app.js:60) and the
per-heading copy affordance (src/app.js:222) check for a prior instance
by an identity marker and are idempotent; the progress bar
(src/app.js:131-145) and the outline block (src/app.js:305-325) perform
no such check, so invoking either twice inserts two elements. -/
theorem singleton_creation_idempotency_status (doc : List Elem)
    (hs : List Heading) :
    createThemeToggle (createThemeToggle doc) = createThemeToggle doc ∧
    addCopyLinks (addCopyLinks hs) = addCopyLinks hs ∧
    (createProgressBar (createProgressBar doc)).countP
        (fun e => e.id == "reading-progress") =
      doc.countP (fun e => e.id == "reading-progress") + 2 ∧
    (generateTOC (generateTOC tocDemoContent)).countP
        (fun n => n.cls == "table-of-contents") = 2 := by
  refine ⟨?_, ?_, ?_, by decide⟩
  · by_cases hnav : (doc.find? (fun e => e.cls == "app-nav")).isNone
    · simp [createThemeToggle, hnav]
    · by_cases htog : (doc.find? (fun e => e.id == "theme-toggle")).isSome
      · simp [createThemeToggle, hnav, htog]
      · have h1 : createThemeToggle doc = doc ++ [themeToggleElem] := by
          simp [createThemeToggle, hnav, htog]
        rw [h1]
        cases hfindNav : doc.find? (fun e => e.cls == "app-nav") with
        | none => exact absurd (by simp [hfindNav]) hnav
        | some x =>
          have hfindTog : doc.find? (fun e => e.id == "theme-toggle") = none :=
            Option.not_isSome_iff_eq_none.mp htog
          simp [createThemeToggle, List.find?_append, hfindNav, hfindTog,
            themeToggleElem, h1]
  · simp only [addCopyLinks, List.map_map]
    apply List.map_congr_left
    intro h _
    by_cases hc : h.id ≠ "" ∧ h.copyLinks = 0
    · simp [Function.comp, hc]
    · simp [Function.comp, hc]
  · simp [createProgressBar, List.countP_append, progressBarElem]

/-! ## Claim C6 — outline insertion position -/

/-- C6 counterexample: a content region with three level-2/3 headings
whose only paragraph is the last child.  The claim says the outline is
inserted immediately after the first paragraph when one exists; the
source additionally requires `insertAfter.nextSibling`
(src/app.js:322), which is null here, so no outline is inserted at
all. -/
theorem generateTOC_skipped_when_paragraph_last :
    3 ≤ (tocLastParaContent.filter isHeading23).length ∧
    (tocLastParaContent.findIdx? (fun n => n.tag == "p")).isSome ∧
    (generateTOC tocLastParaContent).countP
      (fun n => n.cls == "table-of-contents") = 0 := by
  decide

/-- C6 as amended: on a content region with at least three level-2/3
headings, the anchor is the first paragraph if one exists, else the
first level-1/2 heading; the outline block is inserted immediately
after the anchor provided the anchor exists AND has a next sibling,
and otherwise (no anchor, or the anchor is the last child) insertion is
silently skipped with only the heading-id assignment performed. -/
theorem generateTOC_insertion_position (content : List Elem)
    (h : 3 ≤ (content.filter isHeading23).length) :
    (∀ j, (assignHeadingIds content).findIdx? (fun n => n.tag == "p") = some j →
      tocAnchorIdx (assignHeadingIds content) = some j) ∧
    ((assignHeadingIds content).findIdx? (fun n => n.tag == "p") = none →
      tocAnchorIdx (assignHeadingIds content) =
        (assignHeadingIds content).findIdx? (fun n => n.tag == "h1" || n.tag == "h2")) ∧
    (tocAnchorIdx (assignHeadingIds content) = none →
      generateTOC content = assignHeadingIds content) ∧
    (∀ i, tocAnchorIdx (assignHeadingIds content) = some i →
      (i + 1 < (assignHeadingIds content).length →
        generateTOC content =
          (assignHeadingIds content).take (i + 1) ++ [tocElem] ++
            (assignHeadingIds content).drop (i + 1)) ∧
      (¬ i + 1 < (assignHeadingIds content).length →
        generateTOC content = assignHeadingIds content)) := by
  have hlt : ¬ (content.filter isHeading23).length < 3 := by omega
  refine ⟨?_, ?_, ?_, ?_⟩
  · intro j hj
    simp [tocAnchorIdx, hj]
  · intro hnone
    simp [tocAnchorIdx, hnone]
  · intro ha
    simp [generateTOC, hlt, ha]
  · intro i ha
    constructor
    · intro hlt2
      simp [generateTOC, hlt, ha, hlt2]
    · intro hlt2
      simp [generateTOC, hlt, ha, hlt2]

/-- Witness for `generateTOC_insertion_position`: on `tocDemoContent`
the anchor is the leading paragraph (index 0), it has a next sibling,
and the outline lands immediately after it. -/
theorem generateTOC_insertion_position_witness :
    generateTOC tocDemoContent =
      (assignHeadingIds tocDemoContent).take 1 ++ [tocElem] ++
        (assignHeadingIds tocDemoContent).drop 1 :=
  ((generateTOC_insertion_position tocDemoContent (by decide)).2.2.2 0
    (by decide)).1 (by decide)

/-! ## Claim C7 — slug determinism and idempotence

Helper lemmas about `squeezeRun`, `trimEnds` and the character classes,
leading to `generateId (generateId t) = generateId t`. -/

lemma squeezeRun_cons_of_neg {p : Char → Bool} {d : Char} (rest : List Char)
    (h : p d = false) : squeezeRun p (d :: rest) = d :: squeezeRun p rest := by
  cases rest with
  | nil => simp [squeezeRun]
  | cons e r => simp [squeezeRun, h]

lemma mem_of_mem_squeezeRun (p : Char → Bool) :
    ∀ (l : List Char) (c : Char), c ∈ squeezeRun p l → c ∈ l := by
  intro l
  induction l with
  | nil => intro c hc; simp [squeezeRun] at hc
  | cons a t ih =>
    cases t with
    | nil => intro c hc; simpa [squeezeRun] using hc
    | cons b r =>
      intro c hc
      by_cases hab : (p a && p b) = true
      · have hEq : squeezeRun p (a :: b :: r) = squeezeRun p (b :: r) := by
          simp [squeezeRun, hab]
        rw [hEq] at hc
        exact List.mem_cons_of_mem a (ih c hc)
      · have hEq : squeezeRun p (a :: b :: r) = a :: squeezeRun p (b :: r) := by
          simp [squeezeRun, hab]
        rw [hEq] at hc
        rcases List.mem_cons.mp hc with h | h
        · simp [h]
        · exact List.mem_cons_of_mem a (ih c h)

lemma chain'_squeezeRun (p : Char → Bool) :
    ∀ l : List Char,
      List.Chain' (fun a b => (p a && p b) = false) (squeezeRun p l) := by
  intro l
  induction l with
  | nil => simp [squeezeRun]
  | cons a t ih =>
    cases t with
    | nil => simp [squeezeRun]
    | cons b r =>
      by_cases hab : (p a && p b) = true
      · have hEq : squeezeRun p (a :: b :: r) = squeezeRun p (b :: r) := by
          simp [squeezeRun, hab]
        rw [hEq]; exact ih
      · have hEq : squeezeRun p (a :: b :: r) = a :: squeezeRun p (b :: r) := by
          simp [squeezeRun, hab]
        rw [hEq]
        refine List.chain'_cons'.mpr ⟨?_, ih⟩
        intro y hy
        by_cases hpb : p b = true
        · have hpa : p a = false := by
            cases hpav : p a
            · rfl
            · exact absurd (by simp [hpav, hpb]) hab
          simp [hpa]
        · have hpb' : p b = false := by simpa using hpb
          rw [squeezeRun_cons_of_neg r hpb'] at hy
          simp at hy
          subst hy
          simp [hpb']

lemma squeezeRun_eq_self_of_chain (p : Char → Bool) :
    ∀ l : List Char,
      List.Chain' (fun a b => (p a && p b) = false) l → squeezeRun p l = l := by
  intro l
  induction l with
  | nil => intro _; rfl
  | cons a t ih =>
    cases t with
    | nil => intro _; rfl
    | cons b r =>
      intro hch
      have h1 : (p a && p b) = false := (List.chain'_cons.mp hch).1
      have h2 := (List.chain'_cons.mp hch).2
      have hEq : squeezeRun p (a :: b :: r) = a :: squeezeRun p (b :: r) := by
        simp [squeezeRun, h1]
      rw [hEq, ih h2]

lemma squeezeRun_eq_self_of_all (p : Char → Bool) :
    ∀ l : List Char, (∀ c ∈ l, p c = false) → squeezeRun p l = l := by
  intro l
  induction l with
  | nil => intro _; rfl
  | cons a t ih =>
    cases t with
    | nil => intro _; rfl
    | cons b r =>
      intro h
      have ha : p a = false := h a (by simp)
      have hEq : squeezeRun p (a :: b :: r) = a :: squeezeRun p (b :: r) := by
        simp [squeezeRun, ha]
      rw [hEq, ih (fun c hc => h c (List.mem_cons_of_mem a hc))]

lemma dropWhile_eq_self_of_all {p : Char → Bool} {l : List Char}
    (h : ∀ c ∈ l, p c = false) : l.dropWhile p = l := by
  cases l with
  | nil => rfl
  | cons a t => simp [List.dropWhile_cons, h a (by simp)]

lemma trimEnds_eq_self_of_all {l : List Char}
    (h : ∀ c ∈ l, jsWhitespace c = false) : trimEnds l = l := by
  unfold trimEnds
  rw [dropWhile_eq_self_of_all h]
  rw [dropWhile_eq_self_of_all (fun c hc => h c (List.mem_reverse.mp hc))]
  exact List.reverse_reverse l

lemma slug_not_ws {c : Char} (h : isSlugChar c = true) :
    jsWhitespace c = false := by
  simp [isSlugChar] at h
  simp [jsWhitespace]
  omega

lemma slug_keep {c : Char} (h : isSlugChar c = true) : keepChar c = true := by
  simp [isSlugChar] at h
  simp [keepChar]
  omega

lemma keep_not_ws_slug {c : Char} (hk : keepChar c = true)
    (hw : jsWhitespace c = false) : isSlugChar c = true := by
  simp [keepChar] at hk
  simp [jsWhitespace] at hw
  simp [isSlugChar]
  omega

lemma slug_toLower_fix {c : Char} (h : isSlugChar c = true) :
    Char.toLower c = c := by
  simp [isSlugChar] at h
  have h' : ¬(65 ≤ c.toNat ∧ c.toNat ≤ 90) := by omega
  simp [Char.toLower, h']

lemma isSlugChar_of_mem_slugCore {l : List Char} {c : Char}
    (hc : c ∈ slugCore l) : isSlugChar c = true := by
  have h1 : c ∈ (squeezeRun jsWhitespace
      ((l.map Char.toLower).filter keepChar)).map wsToHyphen :=
    mem_of_mem_squeezeRun _ _ _ hc
  rcases List.mem_map.mp h1 with ⟨a, ha, hfa⟩
  have ha2 : a ∈ (l.map Char.toLower).filter keepChar :=
    mem_of_mem_squeezeRun _ _ _ ha
  have hk : keepChar a = true := (List.mem_filter.mp ha2).2
  by_cases hw : jsWhitespace a = true
  · rw [← hfa]
    simp [wsToHyphen, hw]
    decide
  · have hw' : jsWhitespace a = false := by simpa using hw
    rw [← hfa]
    simp [wsToHyphen, hw']
    exact keep_not_ws_slug hk hw'

lemma not_ws_of_mem_slugCore {l : List Char} {c : Char}
    (hc : c ∈ slugCore l) : jsWhitespace c = false :=
  slug_not_ws (isSlugChar_of_mem_slugCore hc)

lemma chain'_slugCore (l : List Char) :
    List.Chain' (fun a b => (isHyphen a && isHyphen b) = false) (slugCore l) :=
  chain'_squeezeRun _ _

lemma slugCore_eq_self (y : List Char)
    (hmem : ∀ c ∈ y, isSlugChar c = true)
    (hch : List.Chain' (fun a b => (isHyphen a && isHyphen b) = false) y) :
    slugCore y = y := by
  have hnws : ∀ c ∈ y, jsWhitespace c = false :=
    fun c hc => slug_not_ws (hmem c hc)
  unfold slugCore
  rw [(List.map_congr_left
    (fun c hc => slug_toLower_fix (hmem c hc))).trans (List.map_id y)]
  rw [List.filter_eq_self.mpr (fun c hc => slug_keep (hmem c hc))]
  rw [squeezeRun_eq_self_of_all _ _ hnws]
  rw [(List.map_congr_left
    (fun c hc => by simp [wsToHyphen, hnws c hc])).trans (List.map_id y)]
  exact squeezeRun_eq_self_of_chain _ _ hch

lemma trim_slugCore (l : List Char) : trimEnds (slugCore l) = slugCore l :=
  trimEnds_eq_self_of_all (fun _ hc => not_ws_of_mem_slugCore hc)

/-- C7: `TableOfContents.generateId` is deterministic (it is a pure
function of its input) and idempotent — `generateId (generateId t) =
generateId t` for every string — and it maps `"Hello, World!! 2024"` to
`"hello-world-2024"`, following the steps lowercase, strip
non-alphanumeric/space/hyphen, collapse whitespace runs to single
hyphens, collapse repeated hyphens, trim edges. -/
theorem generateId_deterministic_idempotent :
    (∀ t : String, generateId (generateId t) = generateId t) ∧
    generateId "Hello, World!! 2024" = "hello-world-2024" := by
  constructor
  · intro t
    show (trimEnds (slugCore (generateId t).data)).asString = generateId t
    have hdata : (generateId t).data = slugCore t.data := by
      show (List.asString (trimEnds (slugCore t.data))).data = slugCore t.data
      rw [trim_slugCore]
      rfl
    rw [hdata]
    rw [slugCore_eq_self (slugCore t.data)
      (fun _ hc => isSlugChar_of_mem_slugCore hc) (chain'_slugCore t.data)]
    rfl
  · decide
